import Mathlib

/-!
Shallow embedding of the viewport core of `src/openrct2/interface/Viewport.cpp`
(coordinate transforms, viewport registry and lifecycle, move/clamp, shift
repaint subdivision, invalidation, scrolling-to-location stepping, and the
scene-graph picking walk), together with theorems checking the documented
behaviour of these operations.

Machine integers: the source computes in `int32_t` far from overflow on all
inputs considered here, so coordinates are embedded as `Int`.  C integer
division truncates toward zero and is embedded as `Int.tdiv`; arithmetic right
shift floors and is embedded as `Int.fdiv` by a power of two.
-/

/-- Screen-space coordinate pair (device pixels or view pixels), from
`ScreenCoordsXY` in Location.hpp. -/
structure ScreenCoordsXY where
  x : Int
  y : Int
deriving Repr, DecidableEq

/-- Screen-space rectangle given by two corner points, from `ScreenRect`. -/
structure ScreenRect where
  p1 : ScreenCoordsXY
  p2 : ScreenCoordsXY
deriving Repr, DecidableEq

/-- World-space coordinate pair, from `CoordsXY`. -/
structure CoordsXY where
  x : Int
  y : Int
deriving Repr, DecidableEq

/-- World-space coordinate triple, from `CoordsXYZ`. -/
structure CoordsXYZ where
  x : Int
  y : Int
  z : Int
deriving Repr, DecidableEq

/-- Modelled from the spec: `ZoomLevel::ApplyTo` of ZoomLevel.h is not under
src/.  Spec 4.1: zoom scaling is strictly bit-shift based; `apply(v)` for
zoom ≥ 0 is `v >> zoom` (arithmetic shift, flooring), for zoom < 0 it is
`v << -zoom`. -/
def ZoomLevel.applyTo (zoom : Int) (v : Int) : Int :=
  if 0 ≤ zoom then Int.fdiv v (2 ^ zoom.toNat) else v * 2 ^ (-zoom).toNat

/-- Modelled from the spec: `ZoomLevel::ApplyInversedTo` of ZoomLevel.h is not
under src/.  Spec 4.1: `applyInversed` is the mirror of `apply`. -/
def ZoomLevel.applyInversedTo (zoom : Int) (v : Int) : Int :=
  if 0 ≤ zoom then v * 2 ^ zoom.toNat else Int.fdiv v (2 ^ (-zoom).toNat)

/-- Modelled from the spec: `CoordsXY::Rotate` of Location.hpp is not under
src/.  Spec 4.1: `(rotatedX, rotatedY)` is the world X/Y rotated by 90° times
the rotation; the direction is masked to 0–3. -/
def CoordsXY.Rotate (c : CoordsXY) (direction : Nat) : CoordsXY :=
  match direction % 4 with
  | 0 => ⟨c.x, c.y⟩
  | 1 => ⟨c.y, -c.x⟩
  | 2 => ⟨-c.x, -c.y⟩
  | _ => ⟨-c.y, c.x⟩

/-- Modelled from the spec: `DirectionFlipXAxis` of Map.hpp is not under src/.
Spec 4.1: the inverse transform un-rotates by the complementary rotation, the
one that inverts `CoordsXY.Rotate`. -/
def DirectionFlipXAxis (direction : Nat) : Nat :=
  direction * 3 % 4

/-- `Translate3DTo2DWithZ`, Viewport.cpp:2015: the forward world-to-screen
isometric projection.  The source uses a right shift for the halving. -/
def Translate3DTo2DWithZ (rotation : Nat) (pos : CoordsXYZ) : ScreenCoordsXY :=
  let rotated := CoordsXY.Rotate ⟨pos.x, pos.y⟩ rotation
  ⟨rotated.y - rotated.x, Int.fdiv (rotated.x + rotated.y) 2 - pos.z⟩

/-- `ViewportPosToMapPos`, Viewport.cpp:1222: the inverse screen-to-map
transform for an assumed height `z`.  The source uses C division (truncation
toward zero) for `coords.x / 2`. -/
def ViewportPosToMapPos (coords : ScreenCoordsXY) (z : Int) (rotation : Nat) : CoordsXY :=
  let ret : CoordsXY := ⟨coords.y - Int.tdiv coords.x 2 + z, coords.y + Int.tdiv coords.x 2 + z⟩
  CoordsXY.Rotate ret (DirectionFlipXAxis rotation)

/-- Cached visibility classification of a viewport, from `VisibilityCache`. -/
inductive VisibilityCache where
  | Unknown
  | Visible
  | Covered
deriving Repr, DecidableEq

/-- The viewport record, with the fields of `struct Viewport` (Viewport.h) that
Viewport.cpp reads and writes. -/
structure Viewport where
  pos : ScreenCoordsXY
  width : Int
  height : Int
  viewPos : ScreenCoordsXY
  view_width : Int
  view_height : Int
  zoom : Int
  flags : Nat
  rotation : Nat
  visibility : VisibilityCache
deriving Repr, DecidableEq

/-- Facts about a viewport's owning window consulted by `ViewportInvalidate`:
whether its classification is `WindowClass::MainWindow` and whether the window
manager reports it visible.  The window manager itself is an external
collaborator. -/
structure OwnerWindow where
  isMain : Bool
  visible : Bool
deriving Repr, DecidableEq

/-- Modelled from the spec: `WindowIsVisible` of Window.cpp is not under src/.
Spec 4.6: the owner query returns whether the window is currently visible and
has the side effect of populating the viewport's visibility cache. -/
def WindowIsVisible (w : OwnerWindow) (vp : Viewport) : Bool × Viewport :=
  (w.visible,
    { vp with visibility := if w.visible then VisibilityCache.Visible else VisibilityCache.Covered })

/-- Outcome of one `ViewportInvalidate` call: the rectangle handed to
`GfxSetDirtyBlocks` (if any), the viewport afterwards (its visibility cache may
have been filled in by the owner query), and how many owner-visibility queries
were performed. -/
structure InvalidateResult where
  dirty : Option ScreenRect
  viewport : Viewport
  visQueries : Nat
deriving Repr, DecidableEq

/-- `ViewportInvalidate`, Viewport.cpp:1834.  `owner` is what the window
manager's `GetOwner` returns for this viewport. -/
def ViewportInvalidate (owner : Option OwnerWindow) (viewport : Viewport)
    (screenRect : ScreenRect) : InvalidateResult :=
  let resolved : Viewport × Nat × Bool :=
    if viewport.visibility = VisibilityCache.Unknown then
      match owner with
      | some w =>
        if w.isMain = false then
          let q := WindowIsVisible w viewport
          (q.2, 1, !q.1)
        else (viewport, 0, false)
      | none => (viewport, 0, false)
    else (viewport, 0, false)
  let vp := resolved.1
  let queries := resolved.2.1
  if resolved.2.2 then ⟨none, vp, queries⟩
  else if vp.visibility = VisibilityCache.Covered then ⟨none, vp, queries⟩
  else
    let topLeft := screenRect.p1
    let bottomRight := screenRect.p2
    let viewportRight := vp.viewPos.x + vp.view_width
    let viewportBottom := vp.viewPos.y + vp.view_height
    if vp.viewPos.x < bottomRight.x ∧ vp.viewPos.y < bottomRight.y then
      let tlx := ZoomLevel.applyInversedTo vp.zoom (max topLeft.x vp.viewPos.x - vp.viewPos.x) + vp.pos.x
      let tly := ZoomLevel.applyInversedTo vp.zoom (max topLeft.y vp.viewPos.y - vp.viewPos.y) + vp.pos.y
      let brx := ZoomLevel.applyInversedTo vp.zoom (min bottomRight.x viewportRight - vp.viewPos.x) + vp.pos.x
      let bry := ZoomLevel.applyInversedTo vp.zoom (min bottomRight.y viewportBottom - vp.viewPos.y) + vp.pos.y
      ⟨some ⟨⟨tlx, tly⟩, ⟨brx, bry⟩⟩, vp, queries⟩
    else ⟨none, vp, queries⟩

/-- `ViewportsInvalidate` (world-rect overload), Viewport.cpp:245.  The
registry is the list of live viewports, each paired with what `GetOwner` would
report for it.  The source increments `x` and `y` inside the per-viewport loop,
so those offsets are loop-carried; the function returns the dirty rectangle
emitted for each registered viewport in order. -/
def ViewportsInvalidate (vps : List (Option OwnerWindow × Viewport))
    (x y z0 z1 : Int) (maxZoom : Int) : List (Option ScreenRect) :=
  match vps with
  | [] => []
  | (owner, vp) :: rest =>
    if maxZoom = -1 ∨ vp.zoom ≤ maxZoom then
      let x' := x + 16
      let y' := y + 16
      let screenCoord := Translate3DTo2DWithZ vp.rotation ⟨x', y', 0⟩
      let rect : ScreenRect :=
        ⟨⟨screenCoord.x - 32, screenCoord.y - 32 - z1⟩, ⟨screenCoord.x + 32, screenCoord.y + 32 - z0⟩⟩
      (ViewportInvalidate owner vp rect).dirty :: ViewportsInvalidate rest x' y' z0 z1 maxZoom
    else
      none :: ViewportsInvalidate rest x y z0 z1 maxZoom

/-- Modelled from the spec: the `LOCATION_NULL` sentinel of Location.hpp is not
under src/; the spec (4.3) calls it the null/sentinel position.  A coordinate
is null when its x component is the sentinel. -/
def kLocationNull : Int := -32768

/-- `CoordsXYZ::IsNull` of Location.hpp, via the sentinel above. -/
def CoordsXYZ.IsNull (c : CoordsXYZ) : Bool := c.x = kLocationNull

/-- `centre_2d_coordinates`, Viewport.cpp:119: screen offset that centres the
view on a world location; `nullopt` when the location is the null sentinel. -/
def centre_2d_coordinates (loc : CoordsXYZ) (viewport : Viewport) : Option ScreenCoordsXY :=
  if loc.IsNull then none
  else
    let screenCoord := Translate3DTo2DWithZ viewport.rotation loc
    some ⟨screenCoord.x - Int.tdiv viewport.view_width 2,
          screenCoord.y - Int.tdiv viewport.view_height 2⟩

/-- The payload of a `Focus` (Viewport.h): either a fixed world coordinate or
an entity reference by id. -/
inductive FocusData where
  | coordinate (c : CoordsXYZ)
  | entity (id : Nat)
deriving Repr, DecidableEq

/-- A viewport focus: zoom plus the coordinate-or-entity payload. -/
structure Focus where
  zoom : Int
  data : FocusData
deriving Repr, DecidableEq

/-- `Focus::GetPos`, Viewport.cpp:135.  `GetEntity` is an external collaborator
embedded as the lookup `entities`; a vanished entity degrades to the zero
coordinate with a diagnostic. -/
def Focus.GetPos (entities : Nat → Option CoordsXYZ) (f : Focus) : CoordsXYZ :=
  match f.data with
  | FocusData.coordinate c => c
  | FocusData.entity id =>
    match entities id with
    | some p => p
    | none => ⟨0, 0, 0⟩

/-- Modelled from the spec: `kMaxViewportCount` of Viewport.h is not under
src/.  The spec (3) only states that the registry has a fixed capacity bound;
the theorems below do not depend on the chosen value. -/
def kMaxViewportCount : Nat := 10

/-- Modelled from the spec: the `VIEWPORT_FLAG_GRIDLINES` bit of Viewport.h is
not under src/; any fixed nonzero bit serves. -/
def VIEWPORT_FLAG_GRIDLINES : Nat := 1

/-- The window fields written by `ViewportCreate`. -/
structure CreateWindow where
  viewport : Option Viewport
  savedViewPos : ScreenCoordsXY
  viewport_target_sprite : Option Nat
deriving Repr, DecidableEq

/-- State acted on by `ViewportCreate`: the live-viewport registry
(`_viewports`, Viewport.cpp:62) and the calling window. -/
structure CreateState where
  viewports : List Viewport
  window : CreateWindow
deriving Repr, DecidableEq

/-- `ViewportCreate`, Viewport.cpp:176.  `currentRotation` stands for
`GetCurrentRotation()` (a read of the main window) and `alwaysShowGridlines`
for the configuration read; the window's viewport pointer is embedded as the
value it points at. -/
def ViewportCreate (entities : Nat → Option CoordsXYZ) (currentRotation : Nat)
    (alwaysShowGridlines : Bool) (s : CreateState) (screenCoords : ScreenCoordsXY)
    (width height : Int) (focus : Focus) : CreateState :=
  if kMaxViewportCount ≤ s.viewports.length then s
  else
    let zoom := focus.zoom
    let viewport : Viewport :=
      { pos := screenCoords, width := width, height := height,
        viewPos := ⟨0, 0⟩,
        view_width := ZoomLevel.applyTo zoom width,
        view_height := ZoomLevel.applyTo zoom height,
        zoom := zoom,
        flags := if alwaysShowGridlines then VIEWPORT_FLAG_GRIDLINES else 0,
        rotation := currentRotation,
        visibility := VisibilityCache.Unknown }
    let targetSprite : Option Nat :=
      match focus.data with
      | FocusData.coordinate _ => none
      | FocusData.entity id => some id
    let centrePos := Focus.GetPos entities focus
    match centre_2d_coordinates centrePos viewport with
    | none =>
      { viewports := s.viewports ++ [viewport],
        window := { s.window with
                    viewport := some viewport,
                    viewport_target_sprite := targetSprite } }
    | some centreLoc =>
      let viewport2 := { viewport with viewPos := centreLoc }
      { viewports := s.viewports ++ [viewport2],
        window := { viewport := some viewport2, savedViewPos := centreLoc,
                    viewport_target_sprite := targetSprite } }

/-- External facts consulted by `ViewportMove`: the device screen size
(`ContextGetWidth`/`ContextGetHeight`), the owning window's `WF_7` display
flag, and `DrawingEngineHasDirtyOptimisations`. -/
structure MoveEnv where
  screenWidth : Int
  screenHeight : Int
  wFlag7 : Bool
  hasDirtyOptimisations : Bool
deriving Repr, DecidableEq

/-- Outcome of one `ViewportMove` call: the viewport state at return, the
clamped temporary viewport handed to `ViewportShiftPixels` (if that stage was
reached), and whether the move was aborted by a non-positive clamped
dimension. -/
structure MoveResult where
  viewport : Viewport
  shifted : Option Viewport
  aborted : Bool
deriving Repr, DecidableEq

/-- Left screen-edge clamp of `ViewportMove`, Viewport.cpp:538-544. -/
def ViewportClampLeft (zoom : Int) (vp : Viewport) : Viewport :=
  if vp.pos.x < 0 then
    { vp with
      width := vp.width + vp.pos.x,
      view_width := vp.view_width + ZoomLevel.applyTo zoom vp.pos.x,
      viewPos := ⟨vp.viewPos.x - ZoomLevel.applyTo zoom vp.pos.x, vp.viewPos.y⟩,
      pos := ⟨0, vp.pos.y⟩ }
  else vp

/-- Right screen-edge clamp of `ViewportMove`, Viewport.cpp:546-551. -/
def ViewportClampRight (env : MoveEnv) (zoom : Int) (vp : Viewport) : Viewport :=
  let eax := vp.pos.x + vp.width - env.screenWidth
  if 0 < eax then
    { vp with
      width := vp.width - eax,
      view_width := vp.view_width - ZoomLevel.applyTo zoom eax }
  else vp

/-- Top screen-edge clamp of `ViewportMove`, Viewport.cpp:559-565. -/
def ViewportClampTop (zoom : Int) (vp : Viewport) : Viewport :=
  if vp.pos.y < 0 then
    { vp with
      height := vp.height + vp.pos.y,
      view_height := vp.view_height + ZoomLevel.applyTo zoom vp.pos.y,
      viewPos := ⟨vp.viewPos.x, vp.viewPos.y - ZoomLevel.applyTo zoom vp.pos.y⟩,
      pos := ⟨vp.pos.x, 0⟩ }
  else vp

/-- Bottom screen-edge clamp of `ViewportMove`, Viewport.cpp:567-572. -/
def ViewportClampBottom (env : MoveEnv) (zoom : Int) (vp : Viewport) : Viewport :=
  let eay := vp.pos.y + vp.height - env.screenHeight
  if 0 < eay then
    { vp with
      height := vp.height - eay,
      view_height := vp.view_height - ZoomLevel.applyTo zoom eay }
  else vp

/-- `ViewportMove`, Viewport.cpp:500.  The source stores the new `viewPos`
first, snapshots the viewport, clamps it against the screen edges in the order
left, right (width abort check), top, bottom (height abort check) — aborting
and restoring the snapshot when a dimension becomes non-positive — shifts
pixels with the clamped viewport, and finally restores the snapshot. -/
def ViewportMove (env : MoveEnv) (coords : ScreenCoordsXY) (vp0 : Viewport) : MoveResult :=
  let zoom := vp0.zoom
  let x_diff := ZoomLevel.applyInversedTo zoom vp0.viewPos.x - ZoomLevel.applyInversedTo zoom coords.x
  let y_diff := ZoomLevel.applyInversedTo zoom vp0.viewPos.y - ZoomLevel.applyInversedTo zoom coords.y
  let vp1 := { vp0 with viewPos := coords }
  if x_diff = 0 ∧ y_diff = 0 then ⟨vp1, none, false⟩
  else if env.wFlag7 ∧ (min (vp1.pos.x + vp1.width) env.screenWidth ≤ max vp1.pos.x 0
      ∨ min (vp1.pos.y + vp1.height) env.screenHeight ≤ max vp1.pos.y 0
      ∨ env.hasDirtyOptimisations) then
    ⟨vp1, none, false⟩
  else
    let v3 := ViewportClampRight env zoom (ViewportClampLeft zoom vp1)
    if v3.width ≤ 0 then ⟨vp1, none, true⟩
    else
      let v5 := ViewportClampBottom env zoom (ViewportClampTop zoom v3)
      if v5.height ≤ 0 then ⟨vp1, none, true⟩
      else ⟨vp1, if env.hasDirtyOptimisations then some v5 else none, false⟩

/-- Whether a `ViewportMove` call passes the zero-delta check and the `WF_7`
early-repaint path, i.e. reaches the screen-edge clamping stage
(Viewport.cpp:536 onward). -/
def ViewportMoveReachesClamp (env : MoveEnv) (coords : ScreenCoordsXY) (vp0 : Viewport) : Bool :=
  let zoom := vp0.zoom
  let x_diff := ZoomLevel.applyInversedTo zoom vp0.viewPos.x - ZoomLevel.applyInversedTo zoom coords.x
  let y_diff := ZoomLevel.applyInversedTo zoom vp0.viewPos.y - ZoomLevel.applyInversedTo zoom coords.y
  !(decide (x_diff = 0 ∧ y_diff = 0))
    && !(env.wFlag7 && (decide (min (vp0.pos.x + vp0.width) env.screenWidth ≤ max vp0.pos.x 0)
        || decide (min (vp0.pos.y + vp0.height) env.screenHeight ≤ max vp0.pos.y 0)
        || env.hasDirtyOptimisations))

/-- A window on the stack above the viewport's owner, as inspected by
`ViewportRedrawAfterShift`: its screen rectangle and whether it is the window
owning the viewport being shifted (the `viewport == window->viewport` skip). -/
structure RWindow where
  windowPos : ScreenCoordsXY
  width : Int
  height : Int
  ownsViewport : Bool
deriving Repr, DecidableEq

/-- `ViewportRedrawAfterShift`, Viewport.cpp:331: the recursive subdivision of
the shifted viewport around overlapping windows.  The drawing calls are outside
the model; the function returns the trace of viewport states at entry of every
(recursive) invocation, which is exactly the sequence of temporary sub-viewport
states the source makes observable.  `fuel` bounds the recursion depth (the
source recursion terminates because every subdivision strictly shrinks the
viewport); every theorem below supplies enough fuel for its input. -/
def ViewportRedrawAfterShift (fuel : Nat) (windows : List RWindow) (viewport : Viewport)
    (coords : ScreenCoordsXY) : List Viewport :=
  match fuel with
  | 0 => [viewport]
  | Nat.succ fuel =>
    match windows with
    | [] => [viewport]
    | window :: rest =>
      if window.ownsViewport = true
          ∨ viewport.pos.x + viewport.width ≤ window.windowPos.x
          ∨ window.windowPos.x + window.width ≤ viewport.pos.x
          ∨ viewport.pos.y + viewport.height ≤ window.windowPos.y
          ∨ window.windowPos.y + window.height ≤ viewport.pos.y then
        viewport :: ViewportRedrawAfterShift fuel rest viewport coords
      else if viewport.pos.x < window.windowPos.x then
        let w1 := window.windowPos.x - viewport.pos.x
        let vpA := { viewport with
                     width := w1,
                     view_width := ZoomLevel.applyTo viewport.zoom w1 }
        let w2 := viewport.width - w1
        let vpB := { vpA with
                     pos := ⟨vpA.pos.x + w1, vpA.pos.y⟩,
                     viewPos := ⟨vpA.viewPos.x + ZoomLevel.applyTo vpA.zoom w1, vpA.viewPos.y⟩,
                     width := w2,
                     view_width := ZoomLevel.applyTo vpA.zoom w2 }
        viewport :: (ViewportRedrawAfterShift fuel (window :: rest) vpA coords
          ++ ViewportRedrawAfterShift fuel (window :: rest) vpB coords)
      else if window.windowPos.x + window.width < viewport.pos.x + viewport.width then
        let w1 := window.windowPos.x + window.width - viewport.pos.x
        let vpA := { viewport with
                     width := w1,
                     view_width := ZoomLevel.applyTo viewport.zoom w1 }
        let w2 := viewport.width - w1
        let vpB := { vpA with
                     pos := ⟨vpA.pos.x + w1, vpA.pos.y⟩,
                     viewPos := ⟨vpA.viewPos.x + ZoomLevel.applyTo vpA.zoom w1, vpA.viewPos.y⟩,
                     width := w2,
                     view_width := ZoomLevel.applyTo vpA.zoom w2 }
        viewport :: (ViewportRedrawAfterShift fuel (window :: rest) vpA coords
          ++ ViewportRedrawAfterShift fuel (window :: rest) vpB coords)
      else if viewport.pos.y < window.windowPos.y then
        let h1 := window.windowPos.y - viewport.pos.y
        let vpA := { viewport with
                     height := h1,
                     view_width := ZoomLevel.applyTo viewport.zoom viewport.width }
        let h2 := viewport.height - h1
        let vpB := { vpA with
                     pos := ⟨vpA.pos.x, vpA.pos.y + h1⟩,
                     viewPos := ⟨vpA.viewPos.x, vpA.viewPos.y + ZoomLevel.applyTo vpA.zoom h1⟩,
                     height := h2,
                     view_width := ZoomLevel.applyTo vpA.zoom vpA.width }
        viewport :: (ViewportRedrawAfterShift fuel (window :: rest) vpA coords
          ++ ViewportRedrawAfterShift fuel (window :: rest) vpB coords)
      else if window.windowPos.y + window.height < viewport.pos.y + viewport.height then
        let h1 := window.windowPos.y + window.height - viewport.pos.y
        let vpA := { viewport with
                     height := h1,
                     view_width := ZoomLevel.applyTo viewport.zoom viewport.width }
        let h2 := viewport.height - h1
        let vpB := { vpA with
                     pos := ⟨vpA.pos.x, vpA.pos.y + h1⟩,
                     viewPos := ⟨vpA.viewPos.x, vpA.viewPos.y + ZoomLevel.applyTo vpA.zoom h1⟩,
                     height := h2,
                     view_width := ZoomLevel.applyTo vpA.zoom vpA.width }
        viewport :: (ViewportRedrawAfterShift fuel (window :: rest) vpA coords
          ++ ViewportRedrawAfterShift fuel (window :: rest) vpB coords)
      else
        [viewport]

/-- The scrolling-to-location step of `ViewportUpdatePosition`,
Viewport.cpp:679-713: from the saved target and the current `viewPos`, the
coordinate handed to `ViewportMove` together with whether the
`WF_SCROLLING_TO_LOCATION` flag is cleared this tick.  Both deltas are made
non-negative before the `(d + 7) / 8` ceiling step and the signs restored
afterwards, exactly as the source's flag dance does. -/
def ScrollStep (savedViewPos viewPos : ScreenCoordsXY) : ScreenCoordsXY × Bool :=
  let wx := savedViewPos.x - viewPos.x
  let ax := if wx < 0 then -wx else wx
  let wy := savedViewPos.y - viewPos.y
  let ay := if wy < 0 then -wy else wy
  let cx := Int.tdiv (ax + 7) 8
  let cy := Int.tdiv (ay + 7) 8
  let cleared := decide (cx = 0 ∧ cy = 0)
  let sx := if wx < 0 then -cx else cx
  let sy := if wy < 0 then -cy else cy
  (⟨viewPos.x + sx, viewPos.y + sy⟩, cleared)

/-- The window state read and written by the fixed-coordinate tail of
`ViewportUpdatePosition`: the saved target, the viewport's visible origin, and
the `WF_SCROLLING_TO_LOCATION` flag. -/
structure ScrollWindow where
  savedViewPos : ScreenCoordsXY
  viewPos : ScreenCoordsXY
  scrolling : Bool
deriving Repr, DecidableEq

/-- The per-tick position update of `ViewportUpdatePosition`
(Viewport.cpp:678-716) for a window with a fixed-coordinate focus whose
viewport midpoint lies inside the map bounds (no edge re-centring): when the
scrolling flag is set, one `ScrollStep` picks the `ViewportMove` target and the
flag is cleared once both axis steps are zero; `ViewportMove` then installs the
target as the new `viewPos` (Viewport.cpp:510 runs unconditionally). -/
def ViewportUpdateScroll (s : ScrollWindow) : ScrollWindow :=
  if s.scrolling then
    let r := ScrollStep s.savedViewPos s.viewPos
    { s with viewPos := r.1, scrolling := !r.2 }
  else
    { s with viewPos := s.savedViewPos }

/-- Iterated per-tick updates of `ViewportUpdateScroll`. -/
def ViewportUpdateScrollIter (s : ScrollWindow) : Nat → ScrollWindow
  | 0 => s
  | Nat.succ n => ViewportUpdateScrollIter (ViewportUpdateScroll s) n

/-- An attached sub-image of a scene-graph node (`AttachedPaintStruct`): image
reference plus offset relative to the owning node. -/
structure AttachedPS where
  image_id : Nat
  RelativePos : ScreenCoordsXY
deriving Repr, DecidableEq

/-- A scene-graph node (`PaintStruct`) as the picking walk consumes it: its own
image and screen position, the attached sub-images, and an identifier standing
for the payload (map position, element, entity, interaction category) that
`InteractionInfo` captures from the winning node. -/
structure PSNode where
  image_id : Nat
  ScreenPos : ScreenCoordsXY
  Attached : List AttachedPS
  info : Nat
deriving Repr, DecidableEq

/-- Inner sibling loop of `SetInteractionInfoFromPaintSession`
(Viewport.cpp:1743-1754): the quadrant entry `ps` and then its `Children` chain
are tested in order, the accumulator keeping the last node whose sprite is hit
at the queried pixel and which passes the filter and is classified fully
`Visible`.  Returns the updated accumulator and the final node of the chain
(the source leaves `ps` at the last sibling when the loop exits).
`interacted` stands for `IsSpriteInteractedWith` at the query pixel (image
data and palettes are external collaborators), `inFilter` for
`PSSpriteTypeIsInFilter` with the query's filter mask, and `visibleKind` for
`GetPaintStructVisibility _ viewFlags == VisibilityKind::Visible`. -/
def ScanChildrenChain (interacted : Nat → ScreenCoordsXY → Bool)
    (inFilter visibleKind : PSNode → Bool) (acc : Option Nat)
    (ps : PSNode) (children : List PSNode) : Option Nat × PSNode :=
  let acc1 :=
    if interacted ps.image_id ps.ScreenPos && inFilter ps && visibleKind ps then some ps.info
    else acc
  match children with
  | [] => (acc1, ps)
  | c :: cs => ScanChildrenChain interacted inFilter visibleKind acc1 c cs

/-- Attached-sub-image loop of `SetInteractionInfoFromPaintSession`
(Viewport.cpp:1758-1767): each attached image of `ps` is tested at its relative
offset under the rules of the owning node `ps`. -/
def ScanAttached (interacted : Nat → ScreenCoordsXY → Bool)
    (inFilter visibleKind : PSNode → Bool) (acc : Option Nat) (ps : PSNode) : Option Nat :=
  List.foldl
    (fun a att =>
      if interacted att.image_id ⟨ps.ScreenPos.x + att.RelativePos.x, ps.ScreenPos.y + att.RelativePos.y⟩
          && inFilter ps && visibleKind ps then some ps.info
      else a)
    acc ps.Attached

/-- `SetInteractionInfoFromPaintSession`, Viewport.cpp:1732.  The session's
scene graph is the `NextQuadrantEntry` chain of quadrant entries, each paired
with its `Children` chain; `none` stands for the empty `InteractionInfo`.
After walking a children chain the source scans the attached sub-images of the
node the inner loop stopped at — the chain's last sibling. -/
def SetInteractionInfoFromPaintSession (interacted : Nat → ScreenCoordsXY → Bool)
    (inFilter visibleKind : PSNode → Bool)
    (quadrants : List (PSNode × List PSNode)) : Option Nat :=
  List.foldl
    (fun acc q =>
      let r := ScanChildrenChain interacted inFilter visibleKind acc q.1 q.2
      ScanAttached interacted inFilter visibleKind r.1 r.2)
    none quadrants

/-- Picking walk as claim C8 reads the spec: the attached sub-images of every
sibling in each children chain are tested under the same rules.  This follows
the claim's words, not the source; it is compared against
`SetInteractionInfoFromPaintSession`. -/
def SetInteractionInfoAllAttached (interacted : Nat → ScreenCoordsXY → Bool)
    (inFilter visibleKind : PSNode → Bool)
    (quadrants : List (PSNode × List PSNode)) : Option Nat :=
  List.foldl
    (fun acc q =>
      List.foldl
        (fun a n =>
          let a1 :=
            if interacted n.image_id n.ScreenPos && inFilter n && visibleKind n then some n.info
            else a
          ScanAttached interacted inFilter visibleKind a1 n)
        acc (q.1 :: q.2))
    none quadrants

/-- Strips the attached sub-images from every node of a children chain except
the last one. -/
def StripAttachedExceptLast : PSNode → List PSNode → PSNode × List PSNode
  | ps, [] => (ps, [])
  | ps, c :: cs =>
    let r := StripAttachedExceptLast c cs
    ({ ps with Attached := [] }, r.1 :: r.2)

/-- A node passes the picking tests on its own image: sprite hit at the queried
pixel, category filter, and fully `Visible` classification. -/
def NodePasses (interacted : Nat → ScreenCoordsXY → Bool)
    (inFilter visibleKind : PSNode → Bool) (n : PSNode) : Bool :=
  interacted n.image_id n.ScreenPos && inFilter n && visibleKind n

/-- A 640×480 viewport at zoom 0, rotation 0, centred on the world origin
(`viewPos = -(view_width/2, view_height/2)`), with resolved visibility. -/
def c1Viewport : Viewport :=
  { pos := ⟨0, 0⟩, width := 640, height := 480, viewPos := ⟨-320, -240⟩,
    view_width := 640, view_height := 480, zoom := 0, flags := 0, rotation := 0,
    visibility := VisibilityCache.Visible }

/-- A 100×100 viewport at zoom 0 at the screen origin, consistent view
dimensions. -/
def c3Viewport : Viewport :=
  { pos := ⟨0, 0⟩, width := 100, height := 100, viewPos := ⟨0, 0⟩,
    view_width := 100, view_height := 100, zoom := 0, flags := 0, rotation := 0,
    visibility := VisibilityCache.Visible }

/-- A window overlapping the bottom half of `c3Viewport` (its top edge cuts the
viewport at y = 50), not owning the viewport. -/
def c3Window : RWindow :=
  { windowPos := ⟨0, 50⟩, width := 200, height := 200, ownsViewport := false }

/-- A 100×100 viewport lying entirely beyond the right edge of a 640-wide
screen, so that the right-edge clamp drives its width non-positive. -/
def c4Viewport : Viewport :=
  { pos := ⟨700, 0⟩, width := 100, height := 100, viewPos := ⟨0, 0⟩,
    view_width := 100, view_height := 100, zoom := 0, flags := 0, rotation := 0,
    visibility := VisibilityCache.Visible }

/-- A 640×480 screen, no `WF_7` display mode, dirty-rect optimisations on. -/
def c4Env : MoveEnv :=
  { screenWidth := 640, screenHeight := 480, wFlag7 := false, hasDirtyOptimisations := true }

/-- A 100×100 viewport fully inside a 640×480 screen. -/
def c10Viewport : Viewport :=
  { pos := ⟨10, 10⟩, width := 100, height := 100, viewPos := ⟨0, 0⟩,
    view_width := 100, view_height := 100, zoom := 0, flags := 0, rotation := 0,
    visibility := VisibilityCache.Visible }

/-- A window scrolling toward target (100, 50) from the origin. -/
def c6Window : ScrollWindow :=
  { savedViewPos := ⟨100, 50⟩, viewPos := ⟨0, 0⟩, scrolling := true }

/-- Scene graph for the picking walks: one quadrant chain of two siblings.  The
first sibling carries an attached sub-image (image 5); neither sibling's own
image is hit. -/
def c8Quadrants : List (PSNode × List PSNode) :=
  [({ image_id := 0, ScreenPos := ⟨0, 0⟩,
      Attached := [{ image_id := 5, RelativePos := ⟨1, 1⟩ }], info := 1 },
    [{ image_id := 1, ScreenPos := ⟨0, 0⟩, Attached := [], info := 2 }])]

/-- Pixel-test oracle for the picking examples: only image 5 is opaque at the
queried pixel. -/
def c8Interacted : Nat → ScreenCoordsXY → Bool := fun img _ => img == 5

/-- Filter and visibility oracles for the picking examples: every node passes. -/
def c8True : PSNode → Bool := fun _ => true

/-- Accumulator semantics of the own-image tests of a sibling walk: the last
node of the list that passes keeps the accumulator. -/
def LastMatch (p : PSNode → Bool) (acc : Option Nat) : List PSNode → Option Nat
  | [] => acc
  | n :: ns => LastMatch p (if p n then some n.info else acc) ns

/-- Picking walk as amended claim C8 describes it: every node's own image is
tested in traversal order, and the attached sub-images of each children
chain's LAST sibling are tested under that sibling's rules. -/
def SetInteractionInfoLastAttachedSpec (interacted : Nat → ScreenCoordsXY → Bool)
    (inFilter visibleKind : PSNode → Bool)
    (quadrants : List (PSNode × List PSNode)) : Option Nat :=
  List.foldl
    (fun acc q =>
      ScanAttached interacted inFilter visibleKind
        (LastMatch (NodePasses interacted inFilter visibleKind) acc (q.1 :: q.2))
        (q.2.getLastD q.1))
    none quadrants

/-- Rotating by a direction and then by its complementary direction is the
identity, for directions 0–3. -/
theorem rotate_flip_inverse (c : CoordsXY) (r : Nat) (hr : r < 4) :
    CoordsXY.Rotate (CoordsXY.Rotate c r) (DirectionFlipXAxis r) = c := by
  interval_cases r <;> simp [CoordsXY.Rotate, DirectionFlipXAxis]

/-- Core arithmetic of the inverse-after-forward round trip in rotated
coordinates: when the coordinate sum is even, the floored halving of the
forward projection and the truncated halving of the inverse cancel exactly. -/
theorem inverse_forward_core (rx ry z : Int) (h : (rx + ry) % 2 = 0) :
    (Int.fdiv (rx + ry) 2 - z) - Int.tdiv (ry - rx) 2 + z = rx
    ∧ (Int.fdiv (rx + ry) 2 - z) + Int.tdiv (ry - rx) 2 + z = ry := by
  obtain ⟨k, hk⟩ : ∃ k, rx + ry = 2 * k := ⟨(rx + ry) / 2, by omega⟩
  have h1 : Int.fdiv (rx + ry) 2 = k := by
    rw [hk]; exact Int.mul_fdiv_cancel_left k (by norm_num)
  have h2 : ry - rx = 2 * (k - rx) := by omega
  have h3 : Int.tdiv (ry - rx) 2 = k - rx := by
    rw [h2]; exact Int.mul_tdiv_cancel_left _ (by norm_num)
  omega

/-- Claim C2 (corrected), counterexample: at rotation 0 the round trip through
the forward projection and the inverse transform (with the true z supplied)
does not return the world point (0, 1): the `>> 1` of the forward and the
`/ 2` of the inverse each lose the odd unit, so the result is (0, 0). -/
theorem C2_counterexample :
    ViewportPosToMapPos (Translate3DTo2DWithZ 0 ⟨0, 1, 0⟩) 0 0 ≠ ⟨0, 1⟩ := by decide

/-- Claim C2 (corrected): for every rotation r in {0,1,2,3} and every world
point P whose x+y sum is even, applying `ViewportPosToMapPos` (with P's true z)
to `Translate3DTo2DWithZ` of P at rotation r yields exactly (P.x, P.y). -/
theorem C2_theorem (r : Nat) (P : CoordsXYZ) (hr : r < 4) (h : (P.x + P.y) % 2 = 0) :
    ViewportPosToMapPos (Translate3DTo2DWithZ r P) P.z r = ⟨P.x, P.y⟩ := by
  obtain ⟨x, y, z⟩ := P
  simp only at h
  interval_cases r
  · obtain ⟨h1, h2⟩ := inverse_forward_core x y z (by omega)
    simp only [Translate3DTo2DWithZ, ViewportPosToMapPos, DirectionFlipXAxis, CoordsXY.Rotate,
      CoordsXY.mk.injEq]
    omega
  · obtain ⟨h1, h2⟩ := inverse_forward_core y (-x) z (by omega)
    simp only [Translate3DTo2DWithZ, ViewportPosToMapPos, DirectionFlipXAxis, CoordsXY.Rotate,
      CoordsXY.mk.injEq]
    omega
  · obtain ⟨h1, h2⟩ := inverse_forward_core (-x) (-y) z (by omega)
    simp only [Translate3DTo2DWithZ, ViewportPosToMapPos, DirectionFlipXAxis, CoordsXY.Rotate,
      CoordsXY.mk.injEq]
    omega
  · obtain ⟨h1, h2⟩ := inverse_forward_core (-y) x z (by omega)
    simp only [Translate3DTo2DWithZ, ViewportPosToMapPos, DirectionFlipXAxis, CoordsXY.Rotate,
      CoordsXY.mk.injEq]
    omega

/-- Witness for C2_theorem at rotation 1 and the even-parity point (3, 5, 7). -/
theorem C2_witness :
    ViewportPosToMapPos (Translate3DTo2DWithZ 1 ⟨3, 5, 7⟩) 7 1 = ⟨3, 5⟩ :=
  C2_theorem 1 ⟨3, 5, 7⟩ (by decide) (by decide)

/-- Zoom level 0 leaves a value unchanged under the inverse scaling. -/
theorem applyInversedTo_zero (v : Int) : ZoomLevel.applyInversedTo 0 v = v := by
  simp [ZoomLevel.applyInversedTo]

/-- Invalidating a viewport whose cached visibility is already `Visible`
performs no owner query and clips the rectangle against the view bounds. -/
theorem viewportInvalidate_visible (owner : Option OwnerWindow) (vp : Viewport)
    (rect : ScreenRect) (hvis : vp.visibility = VisibilityCache.Visible) :
    ViewportInvalidate owner vp rect =
      if vp.viewPos.x < rect.p2.x ∧ vp.viewPos.y < rect.p2.y then
        ⟨some ⟨⟨ZoomLevel.applyInversedTo vp.zoom (max rect.p1.x vp.viewPos.x - vp.viewPos.x) + vp.pos.x,
                ZoomLevel.applyInversedTo vp.zoom (max rect.p1.y vp.viewPos.y - vp.viewPos.y) + vp.pos.y⟩,
               ⟨ZoomLevel.applyInversedTo vp.zoom (min rect.p2.x (vp.viewPos.x + vp.view_width) - vp.viewPos.x) + vp.pos.x,
                ZoomLevel.applyInversedTo vp.zoom (min rect.p2.y (vp.viewPos.y + vp.view_height) - vp.viewPos.y) + vp.pos.y⟩⟩,
         vp, 0⟩
      else ⟨none, vp, 0⟩ := by
  simp [ViewportInvalidate, hvis]

/-- Claim C1 (corrected), counterexample: the 640×480 origin-centred viewport
at zoom 0, rotation 0, receiving the world-rect invalidation
{x:0, y:0, z0:0, z1:0}, marks the screen rect (288,224)–(352,288) — not
(-16,-16)–(16,16) translated by the viewport's screen position (0,0). -/
theorem C1_counterexample :
    ViewportsInvalidate [(none, c1Viewport)] 0 0 0 0 (-1)
        = [some ⟨⟨288, 224⟩, ⟨352, 288⟩⟩]
    ∧ ViewportsInvalidate [(none, c1Viewport)] 0 0 0 0 (-1)
        ≠ [some ⟨⟨-16, -16⟩, ⟨16, 16⟩⟩] := by decide

/-- Claim C1 (corrected): a viewport at zoom 0, rotation 0, with resolved
visibility, centred on the world origin (viewPos = (-halfW, -halfH) with
halfW/halfH the half view extents), receiving the world-rect invalidation
{x:0, y:0, z0:0, z1:0}, marks as dirty exactly the screen rectangle from
(-32,-16) to (32,48) translated by the screen point where the world origin
projects, i.e. pos + (halfW, halfH) — provided that rectangle lies within the
view (halfW ≥ 32, halfH ≥ 16, halfW + 32 ≤ view_width, halfH + 48 ≤
view_height). -/
theorem C1_theorem (owner : Option OwnerWindow) (vp : Viewport) (halfW halfH : Int)
    (hzoom : vp.zoom = 0) (hrot : vp.rotation = 0)
    (hvis : vp.visibility = VisibilityCache.Visible)
    (hvp : vp.viewPos = ⟨-halfW, -halfH⟩)
    (hW : 32 ≤ halfW) (hH : 16 ≤ halfH)
    (hW2 : halfW + 32 ≤ vp.view_width) (hH2 : halfH + 48 ≤ vp.view_height) :
    ViewportsInvalidate [(owner, vp)] 0 0 0 0 (-1)
      = [some ⟨⟨vp.pos.x + (halfW - 32), vp.pos.y + (halfH - 16)⟩,
               ⟨vp.pos.x + (halfW + 32), vp.pos.y + (halfH + 48)⟩⟩] := by
  have hsc : Translate3DTo2DWithZ vp.rotation ⟨0 + 16, 0 + 16, 0⟩ = ⟨0, 16⟩ := by
    rw [hrot]; decide
  simp only [ViewportsInvalidate, hsc, viewportInvalidate_visible owner vp _ hvis, hvp, hzoom,
    applyInversedTo_zero, if_pos (Or.inl (rfl : (-1 : Int) = -1))]
  have hcond : -halfW < 0 + 32 ∧ -halfH < 16 + 32 - 0 := by omega
  rw [if_pos hcond]
  simp only [true_or, if_true, List.cons.injEq, Option.some.injEq, ScreenRect.mk.injEq,
    ScreenCoordsXY.mk.injEq, and_true]
  omega

/-- Witness for C1_theorem at the 640×480 origin-centred viewport. -/
theorem C1_witness :
    ViewportsInvalidate [(none, c1Viewport)] 0 0 0 0 (-1)
      = [some ⟨⟨c1Viewport.pos.x + (320 - 32), c1Viewport.pos.y + (240 - 16)⟩,
               ⟨c1Viewport.pos.x + (320 + 32), c1Viewport.pos.y + (240 + 48)⟩⟩] :=
  C1_theorem none c1Viewport 320 240 rfl rfl rfl rfl (by decide) (by decide) (by decide) (by decide)

/-- Claim C3 (code bug): during the recursive carving of
`ViewportRedrawAfterShift`, splitting `c3Viewport` around `c3Window` (which
overlaps it from below) produces a temporary sub-viewport whose height was cut
to 50 while `view_height` stays 100: the y-branches of the source update
`view_width` instead of `view_height`, so the `view_height = zoom.apply(height)`
invariant is violated on an observable state. -/
theorem C3_theorem :
    ∃ v ∈ ViewportRedrawAfterShift 8 [c3Window] c3Viewport ⟨5, 0⟩,
      v.view_height ≠ ZoomLevel.applyTo v.zoom v.height := by decide

/-- The state a `ViewportMove` call returns is always the entry state with the
requested view position installed: every clamp branch restores the snapshot
taken after `viewPos` was stored (Viewport.cpp:510, 536, 555, 576, 586). -/
theorem viewportMove_viewport_eq (env : MoveEnv) (coords : ScreenCoordsXY) (vp : Viewport) :
    (ViewportMove env coords vp).viewport = { vp with viewPos := coords } := by
  simp only [ViewportMove]
  split_ifs <;> rfl

/-- An aborted `ViewportMove` never reaches `ViewportShiftPixels`. -/
theorem viewportMove_aborted_no_shift (env : MoveEnv) (coords : ScreenCoordsXY) (vp : Viewport)
    (h : (ViewportMove env coords vp).aborted = true) :
    (ViewportMove env coords vp).shifted = none := by
  revert h
  simp only [ViewportMove]
  split_ifs <;> simp

/-- Claim C4 (corrected), counterexample: a move of `c4Viewport` (entirely
beyond the right screen edge) is aborted by the width clamp, yet the viewport
at return is not its entry state — the `viewPos` assignment at
Viewport.cpp:510 precedes the snapshot that the abort restores. -/
theorem C4_counterexample :
    (ViewportMove c4Env ⟨10, 0⟩ c4Viewport).aborted = true
    ∧ (ViewportMove c4Env ⟨10, 0⟩ c4Viewport).viewport ≠ c4Viewport := by decide

/-- Claim C4 (corrected): when screen-edge clamping makes a dimension
non-positive, the move is aborted — no pixel shift happens and every viewport
field except `viewPos` is restored to its entry value; `viewPos` keeps the
requested new view position. -/
theorem C4_theorem (env : MoveEnv) (coords : ScreenCoordsXY) (vp : Viewport)
    (h : (ViewportMove env coords vp).aborted = true) :
    (ViewportMove env coords vp).viewport = { vp with viewPos := coords }
    ∧ (ViewportMove env coords vp).shifted = none :=
  ⟨viewportMove_viewport_eq env coords vp, viewportMove_aborted_no_shift env coords vp h⟩

/-- Witness for C4_theorem at the aborting move of `c4Viewport`. -/
theorem C4_witness :
    (ViewportMove c4Env ⟨10, 0⟩ c4Viewport).viewport = { c4Viewport with viewPos := ⟨10, 0⟩ }
    ∧ (ViewportMove c4Env ⟨10, 0⟩ c4Viewport).shifted = none :=
  C4_theorem c4Env ⟨10, 0⟩ c4Viewport (by decide)

/-- Claim C10 (confirmed): every `ViewportMove` call that passes the zero-delta
check and the `WF_7` early-repaint path returns with screen position, width,
height, view_width and view_height at their entry values — the edge clamping is
transient — and with `viewPos` equal to the requested new view position. -/
theorem C10_theorem (env : MoveEnv) (coords : ScreenCoordsXY) (vp : Viewport)
    (h : ViewportMoveReachesClamp env coords vp = true) :
    (ViewportMove env coords vp).viewport = { vp with viewPos := coords } :=
  viewportMove_viewport_eq env coords vp

/-- Witness for C10_theorem at an in-bounds viewport moved by (10, 0). -/
theorem C10_witness :
    (ViewportMove c4Env ⟨10, 0⟩ c10Viewport).viewport = { c10Viewport with viewPos := ⟨10, 0⟩ } :=
  C10_theorem c4Env ⟨10, 0⟩ c10Viewport (by decide)

/-- Claim C5 (confirmed): the live-viewport registry never exceeds
`kMaxViewportCount` across creates, and a create issued while the registry is
at (or beyond) capacity returns the state unchanged: no viewport is allocated,
no existing viewport is modified, and the calling window — in particular its
viewport slot — is untouched. -/
theorem C5_theorem (entities : Nat → Option CoordsXYZ) (currentRotation : Nat)
    (alwaysShowGridlines : Bool) (s : CreateState) (screenCoords : ScreenCoordsXY)
    (width height : Int) (focus : Focus) :
    (s.viewports.length ≤ kMaxViewportCount →
      (ViewportCreate entities currentRotation alwaysShowGridlines s screenCoords
        width height focus).viewports.length ≤ kMaxViewportCount)
    ∧ (kMaxViewportCount ≤ s.viewports.length →
      ViewportCreate entities currentRotation alwaysShowGridlines s screenCoords
        width height focus = s) := by
  constructor
  · intro hle
    by_cases hcap : kMaxViewportCount ≤ s.viewports.length
    · simp [ViewportCreate, hcap]; exact hle
    · simp only [ViewportCreate, if_neg hcap]
      cases hc : centre_2d_coordinates
          (Focus.GetPos entities focus)
          { pos := screenCoords, width := width, height := height, viewPos := ⟨0, 0⟩,
            view_width := ZoomLevel.applyTo focus.zoom width,
            view_height := ZoomLevel.applyTo focus.zoom height, zoom := focus.zoom,
            flags := if alwaysShowGridlines then VIEWPORT_FLAG_GRIDLINES else 0,
            rotation := currentRotation, visibility := VisibilityCache.Unknown } with
      | none => simp [hc, List.length_append]; omega
      | some c => simp [hc, List.length_append]; omega
  · intro hge
    simp [ViewportCreate, hge]

/-- Witness for C5_theorem: a create on an empty registry keeps the bound, and
a create on a full registry of ten viewports returns the state unchanged. -/
theorem C5_witness :
    ((ViewportCreate (fun _ => none) 0 false
        ⟨[], ⟨none, ⟨0, 0⟩, none⟩⟩ ⟨0, 0⟩ 100 100
        ⟨0, FocusData.coordinate ⟨0, 0, 0⟩⟩).viewports.length ≤ kMaxViewportCount)
    ∧ ViewportCreate (fun _ => none) 0 false
        ⟨List.replicate 10 c1Viewport, ⟨none, ⟨0, 0⟩, none⟩⟩ ⟨0, 0⟩ 100 100
        ⟨0, FocusData.coordinate ⟨0, 0, 0⟩⟩
      = ⟨List.replicate 10 c1Viewport, ⟨none, ⟨0, 0⟩, none⟩⟩ :=
  ⟨(C5_theorem (fun _ => none) 0 false ⟨[], ⟨none, ⟨0, 0⟩, none⟩⟩ ⟨0, 0⟩ 100 100
      ⟨0, FocusData.coordinate ⟨0, 0, 0⟩⟩).1 (by decide),
   (C5_theorem (fun _ => none) 0 false ⟨List.replicate 10 c1Viewport, ⟨none, ⟨0, 0⟩, none⟩⟩
      ⟨0, 0⟩ 100 100 ⟨0, FocusData.coordinate ⟨0, 0, 0⟩⟩).2 (by decide)⟩

/-- Two screen coordinates with equal components are equal. -/
theorem ScreenCoordsXY.ext2 (a b : ScreenCoordsXY) (hx : a.x = b.x) (hy : a.y = b.y) : a = b := by
  cases a; cases b; simp_all

/-- The ceiling-by-8 step of a non-negative delta is zero exactly when the
delta is zero. -/
theorem tdiv8_eq_zero_iff (a : Int) (h : 0 ≤ a) : Int.tdiv (a + 7) 8 = 0 ↔ a = 0 := by
  rw [Int.tdiv_eq_ediv (by omega) (by norm_num)]
  omega

/-- Per-axis behaviour of the sign-preserving `ceil(|d|/8)` step: it vanishes
on a zero delta and otherwise strictly shrinks the delta without
overshooting. -/
theorem scroll_axis_step (d : Int) :
    (d = 0 → (if d < 0 then -Int.tdiv (-d + 7) 8 else Int.tdiv (d + 7) 8) = 0)
    ∧ (d ≠ 0 → (d - (if d < 0 then -Int.tdiv (-d + 7) 8 else Int.tdiv (d + 7) 8)).natAbs
        < d.natAbs) := by
  constructor
  · intro h
    subst h
    norm_num
    decide
  · intro h
    rcases lt_or_gt_of_ne h with hneg | hpos
    · rw [if_pos hneg, Int.tdiv_eq_ediv (by omega) (by norm_num)]
      omega
    · rw [if_neg (by omega), Int.tdiv_eq_ediv (by omega) (by norm_num)]
      omega

/-- The coordinate `ScrollStep` hands to the move, written with the per-axis
step expressions. -/
theorem ScrollStep_fst (sv vp : ScreenCoordsXY) :
    (ScrollStep sv vp).1 =
      ⟨vp.x + (if sv.x - vp.x < 0 then -Int.tdiv (-(sv.x - vp.x) + 7) 8
               else Int.tdiv (sv.x - vp.x + 7) 8),
       vp.y + (if sv.y - vp.y < 0 then -Int.tdiv (-(sv.y - vp.y) + 7) 8
               else Int.tdiv (sv.y - vp.y + 7) 8)⟩ := by
  simp only [ScrollStep]
  split_ifs <;> rfl

/-- The scrolling flag is cleared exactly when the offset is already zero on
both axes. -/
theorem ScrollStep_snd (sv vp : ScreenCoordsXY) :
    (ScrollStep sv vp).2 = true ↔ sv.x = vp.x ∧ sv.y = vp.y := by
  simp only [ScrollStep, decide_eq_true_eq]
  split_ifs with h1 h2 h2
  · rw [tdiv8_eq_zero_iff _ (by omega), tdiv8_eq_zero_iff _ (by omega)]
    omega
  · rw [tdiv8_eq_zero_iff _ (by omega), tdiv8_eq_zero_iff _ (by omega)]
    omega
  · rw [tdiv8_eq_zero_iff _ (by omega), tdiv8_eq_zero_iff _ (by omega)]
    omega
  · rw [tdiv8_eq_zero_iff _ (by omega), tdiv8_eq_zero_iff _ (by omega)]
    omega

/-- One scrolling step strictly shrinks the total remaining offset when it is
nonzero. -/
theorem scrollStep_measure (sv vp : ScreenCoordsXY) (h : ¬(sv.x = vp.x ∧ sv.y = vp.y)) :
    (sv.x - (ScrollStep sv vp).1.x).natAbs + (sv.y - (ScrollStep sv vp).1.y).natAbs
      < (sv.x - vp.x).natAbs + (sv.y - vp.y).natAbs := by
  rw [ScrollStep_fst]
  obtain ⟨hx0, hx1⟩ := scroll_axis_step (sv.x - vp.x)
  obtain ⟨hy0, hy1⟩ := scroll_axis_step (sv.y - vp.y)
  rcases eq_or_ne (sv.x - vp.x) 0 with hx | hx
  · rcases eq_or_ne (sv.y - vp.y) 0 with hy | hy
    · exact absurd ⟨by omega, by omega⟩ h
    · have := hy1 hy
      have := hx0 hx
      simp only
      omega
  · have := hx1 hx
    rcases eq_or_ne (sv.y - vp.y) 0 with hy | hy
    · have := hy0 hy
      simp only
      omega
    · have := hy1 hy
      simp only
      omega

/-- A zero remaining offset is a fixed point of the scrolling step. -/
theorem scrollStep_fixed (sv vp : ScreenCoordsXY) (hx : sv.x = vp.x) (hy : sv.y = vp.y) :
    (ScrollStep sv vp).1 = vp := by
  rw [ScrollStep_fst, hx, hy]
  have h7 : Int.tdiv 7 8 = 0 := by decide
  simp [h7]

/-- The per-tick update never changes the saved target. -/
theorem updateScroll_saved (s : ScrollWindow) :
    (ViewportUpdateScroll s).savedViewPos = s.savedViewPos := by
  simp only [ViewportUpdateScroll]
  split_ifs <;> rfl

/-- Iterating the per-tick update one more tick is one update after the
iterate. -/
theorem scrollIter_succ (n : Nat) : ∀ s : ScrollWindow,
    ViewportUpdateScrollIter s (n + 1) = ViewportUpdateScroll (ViewportUpdateScrollIter s n) := by
  induction n with
  | zero => intro s; rfl
  | succ n ih => intro s; exact ih (ViewportUpdateScroll s)

/-- After as many ticks as the initial total offset, the viewport origin sits
exactly on the saved target (and the target itself never moved). -/
theorem scroll_reaches (n : Nat) : ∀ s : ScrollWindow,
    (s.savedViewPos.x - s.viewPos.x).natAbs + (s.savedViewPos.y - s.viewPos.y).natAbs ≤ n →
    (ViewportUpdateScrollIter s n).viewPos = s.savedViewPos
    ∧ (ViewportUpdateScrollIter s n).savedViewPos = s.savedViewPos := by
  induction n with
  | zero =>
    intro s h
    have hx : s.viewPos.x = s.savedViewPos.x := by omega
    have hy : s.viewPos.y = s.savedViewPos.y := by omega
    exact ⟨ScreenCoordsXY.ext2 _ _ hx hy, rfl⟩
  | succ n ih =>
    intro s h
    have hstep : ViewportUpdateScrollIter s (n + 1)
        = ViewportUpdateScrollIter (ViewportUpdateScroll s) n := rfl
    have hsv := updateScroll_saved s
    have hm : ((ViewportUpdateScroll s).savedViewPos.x - (ViewportUpdateScroll s).viewPos.x).natAbs
        + ((ViewportUpdateScroll s).savedViewPos.y - (ViewportUpdateScroll s).viewPos.y).natAbs ≤ n := by
      rw [hsv]
      by_cases hs : s.scrolling
      · by_cases hz : s.savedViewPos.x = s.viewPos.x ∧ s.savedViewPos.y = s.viewPos.y
        · have : (ViewportUpdateScroll s).viewPos = s.viewPos := by
            simp only [ViewportUpdateScroll, if_pos hs]
            exact scrollStep_fixed _ _ hz.1 hz.2
          rw [this]
          omega
        · have hlt := scrollStep_measure s.savedViewPos s.viewPos hz
          have : (ViewportUpdateScroll s).viewPos = (ScrollStep s.savedViewPos s.viewPos).1 := by
            simp only [ViewportUpdateScroll, if_pos hs]
          rw [this]
          omega
      · have : (ViewportUpdateScroll s).viewPos = s.savedViewPos := by
          simp only [ViewportUpdateScroll, if_neg hs]
        rw [this]
        omega
    obtain ⟨h1, h2⟩ := ih (ViewportUpdateScroll s) hm
    rw [hstep]
    exact ⟨by rw [h1, hsv], by rw [h2, hsv]⟩

/-- Once the origin sits on the target, the next tick clears the scrolling
flag. -/
theorem scroll_clears (s : ScrollWindow) (h : s.viewPos = s.savedViewPos) :
    (ViewportUpdateScroll s).scrolling = false := by
  by_cases hs : s.scrolling
  · have ht : (ScrollStep s.savedViewPos s.viewPos).2 = true :=
      (ScrollStep_snd _ _).mpr ⟨by rw [h], by rw [h]⟩
    simp [ViewportUpdateScroll, hs, ht]
  · simp only [ViewportUpdateScroll, if_neg hs]
    simpa using hs

/-- Claim C6 (confirmed): a window in the scrolling-to-location state with a
nonzero offset between `savedViewPos` and the viewport origin reaches an
exactly zero offset on both axes within a number of ticks bounded by the
initial total offset, and the tick after that clears the scrolling flag. -/
theorem C6_theorem (s : ScrollWindow) (hscroll : s.scrolling = true)
    (hne : s.viewPos ≠ s.savedViewPos) :
    ∃ n : Nat,
      n ≤ (s.savedViewPos.x - s.viewPos.x).natAbs + (s.savedViewPos.y - s.viewPos.y).natAbs
      ∧ (ViewportUpdateScrollIter s n).viewPos = s.savedViewPos
      ∧ (ViewportUpdateScrollIter s (n + 1)).scrolling = false := by
  refine ⟨(s.savedViewPos.x - s.viewPos.x).natAbs + (s.savedViewPos.y - s.viewPos.y).natAbs,
    le_refl _, (scroll_reaches _ s (le_refl _)).1, ?_⟩
  obtain ⟨h1, h2⟩ := scroll_reaches
    ((s.savedViewPos.x - s.viewPos.x).natAbs + (s.savedViewPos.y - s.viewPos.y).natAbs) s (le_refl _)
  rw [scrollIter_succ]
  exact scroll_clears _ (by rw [h1, h2])

/-- Witness for C6_theorem at the window scrolling from the origin to
(100, 50). -/
theorem C6_witness :
    ∃ n : Nat,
      n ≤ (c6Window.savedViewPos.x - c6Window.viewPos.x).natAbs
          + (c6Window.savedViewPos.y - c6Window.viewPos.y).natAbs
      ∧ (ViewportUpdateScrollIter c6Window n).viewPos = c6Window.savedViewPos
      ∧ (ViewportUpdateScrollIter c6Window (n + 1)).scrolling = false :=
  C6_theorem c6Window rfl (by decide)

/-- `LastMatch` distributes over list concatenation. -/
theorem lastMatch_append (p : PSNode → Bool) (l1 : List PSNode) : ∀ (acc : Option Nat) (l2 : List PSNode),
    LastMatch p acc (l1 ++ l2) = LastMatch p (LastMatch p acc l1) l2 := by
  induction l1 with
  | nil => intro acc l2; rfl
  | cons n ns ih => intro acc l2; exact ih _ l2

/-- `LastMatch` keeps the info of the last node satisfying the test, or the
accumulator when none does. -/
theorem lastMatch_eq (p : PSNode → Bool) : ∀ (l : List PSNode) (acc : Option Nat),
    LastMatch p acc l = (((l.filter p).getLast?).map (fun n => (some n.info : Option Nat))).getD acc := by
  intro l
  induction l with
  | nil => intro acc; rfl
  | cons n ns ih =>
    intro acc
    rw [LastMatch, ih]
    by_cases hp : p n
    · simp only [List.filter_cons, hp, if_pos]
      cases hfo : ns.filter p with
      | nil => simp [hfo]
      | cons m ms =>
        cases hl : (m :: ms).getLast? with
        | none => simp at hl
        | some k => simp [hfo, List.getLast?_cons_cons, hl]
    · simp only [List.filter_cons, hp]
      simp

/-- The accumulator produced by the sibling walk is the `LastMatch` of the
whole chain. -/
theorem scanChain_fst (i : Nat → ScreenCoordsXY → Bool) (f v : PSNode → Bool) :
    ∀ (children : List PSNode) (acc : Option Nat) (ps : PSNode),
    (ScanChildrenChain i f v acc ps children).1
      = LastMatch (NodePasses i f v) acc (ps :: children) := by
  intro children
  induction children with
  | nil => intro acc ps; rfl
  | cons c cs ih =>
    intro acc ps
    rw [ScanChildrenChain, LastMatch]
    exact ih _ c

/-- The sibling walk stops at the last node of the chain. -/
theorem scanChain_snd (i : Nat → ScreenCoordsXY → Bool) (f v : PSNode → Bool) :
    ∀ (children : List PSNode) (acc : Option Nat) (ps : PSNode),
    (ScanChildrenChain i f v acc ps children).2 = children.getLastD ps := by
  intro children
  induction children with
  | nil => intro acc ps; rfl
  | cons c cs ih =>
    intro acc ps
    rw [ScanChildrenChain]
    rw [ih _ c]
    rw [List.getLastD_cons]

/-- Scanning an empty attached list leaves the accumulator unchanged. -/
theorem scanAttached_empty (i : Nat → ScreenCoordsXY → Bool) (f v : PSNode → Bool)
    (acc : Option Nat) (ps : PSNode) (h : ps.Attached = []) :
    ScanAttached i f v acc ps = acc := by
  simp [ScanAttached, h]

/-- On scene graphs without attached sub-images, the picking fold computes the
`LastMatch` over the nodes in traversal order. -/
theorem pick_fold_no_attached (i : Nat → ScreenCoordsXY → Bool) (f v : PSNode → Bool) :
    ∀ (qs : List (PSNode × List PSNode)) (acc : Option Nat),
    (∀ q ∈ qs, ∀ n ∈ q.1 :: q.2, n.Attached = []) →
    List.foldl
        (fun acc q =>
          let r := ScanChildrenChain i f v acc q.1 q.2
          ScanAttached i f v r.1 r.2)
        acc qs
      = LastMatch (NodePasses i f v) acc ((qs.map (fun q => q.1 :: q.2)).flatten) := by
  intro qs
  induction qs with
  | nil => intro acc hatt; rfl
  | cons q rest ih =>
    intro acc hatt
    have hlast : (ScanChildrenChain i f v acc q.1 q.2).2 ∈ q.1 :: q.2 := by
      rw [scanChain_snd]
      exact List.getLastD_mem_cons q.2 q.1
    have hatt1 : (ScanChildrenChain i f v acc q.1 q.2).2.Attached = [] :=
      hatt q (List.mem_cons_self q rest) _ hlast
    simp only [List.foldl_cons, List.map_cons, List.flatten_cons]
    rw [lastMatch_append]
    rw [← scanChain_fst]
    have hbody :
        (let r := ScanChildrenChain i f v acc q.1 q.2
         ScanAttached i f v r.1 r.2) = (ScanChildrenChain i f v acc q.1 q.2).1 :=
      scanAttached_empty i f v _ _ hatt1
    rw [hbody]
    exact ih _ (fun q hq => hatt q (List.mem_cons_of_mem _ hq))

/-- Claim C7 (confirmed): on a generated scene graph without attached
sub-images, the picking walk returns the info of the node encountered last in
the quadrant-chain/sibling-chain traversal order among those passing the
opacity test, the category filter, and the `Visible` classification; when no
node passes all three tests the result is empty. -/
theorem C7_theorem (interacted : Nat → ScreenCoordsXY → Bool)
    (inFilter visibleKind : PSNode → Bool) (quadrants : List (PSNode × List PSNode))
    (hatt : ∀ q ∈ quadrants, ∀ n ∈ q.1 :: q.2, n.Attached = []) :
    SetInteractionInfoFromPaintSession interacted inFilter visibleKind quadrants
      = (((quadrants.map (fun q => q.1 :: q.2)).flatten.filter
            (NodePasses interacted inFilter visibleKind)).getLast?).map PSNode.info := by
  rw [SetInteractionInfoFromPaintSession]
  rw [pick_fold_no_attached interacted inFilter visibleKind quadrants none hatt]
  rw [lastMatch_eq]
  cases ((quadrants.map (fun q => q.1 :: q.2)).flatten.filter
      (NodePasses interacted inFilter visibleKind)).getLast? with
  | none => rfl
  | some n => rfl

/-- Witness for C7_theorem: two overlapping nodes that both pass; the later
sibling wins. -/
theorem C7_witness :
    SetInteractionInfoFromPaintSession (fun _ _ => true) (fun _ => true) (fun _ => true)
        [({ image_id := 0, ScreenPos := ⟨0, 0⟩, Attached := [], info := 1 },
          [{ image_id := 1, ScreenPos := ⟨0, 0⟩, Attached := [], info := 2 }])]
      = ((([({ image_id := 0, ScreenPos := ⟨0, 0⟩, Attached := [], info := 1 },
              [{ image_id := 1, ScreenPos := ⟨0, 0⟩, Attached := [], info := 2 }])].map
            (fun q => q.1 :: q.2)).flatten.filter
              (NodePasses (fun _ _ => true) (fun _ => true) (fun _ => true))).getLast?).map
          PSNode.info :=
  C7_theorem (fun _ _ => true) (fun _ => true) (fun _ => true) _ (by decide)

/-- Claim C8 (corrected), counterexample: on `c8Quadrants` the matching
attached sub-image belongs to the first sibling of the chain, and the source
walk — which only scans the attached list of the node the sibling loop stopped
at, the last sibling — returns the empty result, while the claim's
all-siblings semantics returns the first sibling. -/
theorem C8_counterexample :
    SetInteractionInfoFromPaintSession c8Interacted c8True c8True c8Quadrants = none
    ∧ SetInteractionInfoAllAttached c8Interacted c8True c8True c8Quadrants = some 1 := by
  constructor
  · rfl
  · rfl

/-- Claim C8 (corrected): for every scene graph the picking walk tests the own
image of every node of every children chain in order, but attached sub-images
only of the LAST sibling of each chain — at their relative offsets, under that
sibling's filter and visibility rules; attached sub-images of earlier siblings
are never examined. -/
theorem C8_theorem (interacted : Nat → ScreenCoordsXY → Bool)
    (inFilter visibleKind : PSNode → Bool) (quadrants : List (PSNode × List PSNode)) :
    SetInteractionInfoFromPaintSession interacted inFilter visibleKind quadrants
      = SetInteractionInfoLastAttachedSpec interacted inFilter visibleKind quadrants := by
  rw [SetInteractionInfoFromPaintSession, SetInteractionInfoLastAttachedSpec]
  have hbody : ∀ (acc : Option Nat) (q : PSNode × List PSNode),
      (let r := ScanChildrenChain interacted inFilter visibleKind acc q.1 q.2
       ScanAttached interacted inFilter visibleKind r.1 r.2)
        = ScanAttached interacted inFilter visibleKind
            (LastMatch (NodePasses interacted inFilter visibleKind) acc (q.1 :: q.2))
            (q.2.getLastD q.1) := by
    intro acc q
    show ScanAttached interacted inFilter visibleKind
        (ScanChildrenChain interacted inFilter visibleKind acc q.1 q.2).1
        (ScanChildrenChain interacted inFilter visibleKind acc q.1 q.2).2 = _
    rw [scanChain_fst, scanChain_snd]
  exact List.foldl_ext _ _ none fun acc q _ => hbody acc q

/-- A viewport with cached visibility `Unknown`, used for the invalidation
claims. -/
def c9Viewport : Viewport :=
  { pos := ⟨0, 0⟩, width := 100, height := 100, viewPos := ⟨0, 0⟩,
    view_width := 100, view_height := 100, zoom := 0, flags := 0, rotation := 0,
    visibility := VisibilityCache.Unknown }

/-- Claim C9 (corrected), counterexample: an invalidation of an
`Unknown`-visibility viewport owned by the primary (main) window performs no
owner-visibility resolution at all — not exactly one. -/
theorem C9_counterexample :
    (ViewportInvalidate (some ⟨true, true⟩) c9Viewport ⟨⟨0, 0⟩, ⟨50, 50⟩⟩).visQueries ≠ 1 := by
  decide

/-- Claim C9 (corrected): an invalidation of a `Covered` viewport emits no
dirty rectangle and changes no state; on an `Unknown` viewport at most one
owner-visibility resolution happens — exactly one when the owner exists and is
not the primary window, zero when there is no owner or the owner is primary —
and when a non-primary owner is not visible the invalidation is skipped
entirely (the only change being the visibility cache filled in as `Covered`). -/
theorem C9_theorem (owner : Option OwnerWindow) (vp : Viewport) (rect : ScreenRect) :
    (vp.visibility = VisibilityCache.Covered →
      ViewportInvalidate owner vp rect = ⟨none, vp, 0⟩)
    ∧ (vp.visibility = VisibilityCache.Unknown →
      (ViewportInvalidate owner vp rect).visQueries
        = match owner with
          | some w => if w.isMain then 0 else 1
          | none => 0)
    ∧ (∀ w, vp.visibility = VisibilityCache.Unknown → owner = some w → w.isMain = false →
      w.visible = false →
      ViewportInvalidate owner vp rect
        = ⟨none, { vp with visibility := VisibilityCache.Covered }, 1⟩) := by
  refine ⟨?_, ?_, ?_⟩
  · intro hcov
    simp [ViewportInvalidate, hcov]
  · intro hunk
    cases owner with
    | none =>
      simp only [ViewportInvalidate, hunk]
      split_ifs <;> rfl
    | some w =>
      cases hm : w.isMain with
      | true =>
        simp only [ViewportInvalidate, hunk, hm, WindowIsVisible]
        split_ifs <;> simp_all
      | false =>
        cases hv : w.visible with
        | true =>
          simp only [ViewportInvalidate, hunk, hm, hv, WindowIsVisible]
          split_ifs <;> simp_all
        | false =>
          simp only [ViewportInvalidate, hunk, hm, hv, WindowIsVisible]
          split_ifs <;> simp_all
  · intro w hunk howner hmain hvis
    subst howner
    simp [ViewportInvalidate, hunk, hmain, hvis, WindowIsVisible]

/-- Witness for C9_theorem: a covered viewport is skipped without a query; an
unknown viewport with a non-primary owner is resolved by exactly one query and
skipped when that owner is invisible. -/
theorem C9_witness :
    (ViewportInvalidate (some ⟨false, false⟩) { c9Viewport with visibility := VisibilityCache.Covered }
        ⟨⟨0, 0⟩, ⟨50, 50⟩⟩
      = ⟨none, { c9Viewport with visibility := VisibilityCache.Covered }, 0⟩)
    ∧ (ViewportInvalidate (some ⟨false, false⟩) c9Viewport ⟨⟨0, 0⟩, ⟨50, 50⟩⟩).visQueries = 1
    ∧ ViewportInvalidate (some ⟨false, false⟩) c9Viewport ⟨⟨0, 0⟩, ⟨50, 50⟩⟩
      = ⟨none, { c9Viewport with visibility := VisibilityCache.Covered }, 1⟩ :=
  ⟨(C9_theorem (some ⟨false, false⟩) { c9Viewport with visibility := VisibilityCache.Covered }
      ⟨⟨0, 0⟩, ⟨50, 50⟩⟩).1 rfl,
   (C9_theorem (some ⟨false, false⟩) c9Viewport ⟨⟨0, 0⟩, ⟨50, 50⟩⟩).2.1 rfl,
   (C9_theorem (some ⟨false, false⟩) c9Viewport ⟨⟨0, 0⟩, ⟨50, 50⟩⟩).2.2 ⟨false, false⟩ rfl rfl rfl rfl⟩
